import Mathlib

/-!
Verification of the core simulation engine of the holistic-urban-simulator
repository (src/src/core_engine/simulation_engine.py), shallowly embedded in
Lean 4.  Python float arithmetic is modelled by exact rational arithmetic
(`ℚ`); a cell's stringly-keyed state dictionary is modelled by a structure of
`Option ℚ` fields (`none` = key absent), and every `dict.get(key, default)`
of the source is modelled by `oget` with the very default the call site uses.
-/

namespace UrbanSim

/-- One spatial grid cell's state dictionary (`UrbanCell.state`).  Each field
is `none` when the corresponding key is absent from the dictionary.  The
fields named `ev_attractiveness_bonus`, `policy_population_bonus`,
`education_population_bonus`, `healthcare_population_bonus` and
`previous_rent` model the transient keys `_ev_attractiveness_bonus`,
`_policy_population_bonus`, `_education_population_bonus`,
`_healthcare_population_bonus` and `_previous_rent`. -/
structure CellState where
  population : Option ℚ := none
  population_density : Option ℚ := none
  traffic_congestion : Option ℚ := none
  safety_score : Option ℚ := none
  commercial_vitality : Option ℚ := none
  avg_rent_euro : Option ℚ := none
  displacement_risk : Option ℚ := none
  green_space_ratio : Option ℚ := none
  employment : Option ℚ := none
  unemployment_rate : Option ℚ := none
  housing_units : Option ℚ := none
  vacancy_rate : Option ℚ := none
  public_transit_accessibility : Option ℚ := none
  air_quality_index : Option ℚ := none
  social_cohesion_index : Option ℚ := none
  chargers_count : Option ℚ := none
  ev_capacity_kw : Option ℚ := none
  charger_density_per_sqkm : Option ℚ := none
  avg_charger_capacity_kw : Option ℚ := none
  ev_attractiveness_bonus : Option ℚ := none
  policy_population_bonus : Option ℚ := none
  education_population_bonus : Option ℚ := none
  healthcare_population_bonus : Option ℚ := none
  previous_rent : Option ℚ := none
deriving Repr, DecidableEq

/-- `cell.state.get(key, default)`. -/
def oget (o : Option ℚ) (d : ℚ) : ℚ := o.getD d

/-- The metric names that appear as dictionary keys in the engine. -/
inductive Metric where
  | population | population_density | traffic_congestion | safety_score
  | commercial_vitality | avg_rent_euro | displacement_risk | green_space_ratio
  | employment | unemployment_rate | housing_units | vacancy_rate
  | public_transit_accessibility | air_quality_index | social_cohesion_index
  | chargers_count | ev_capacity_kw | charger_density_per_sqkm
  | avg_charger_capacity_kw | ev_attractiveness_bonus | policy_population_bonus
  | education_population_bonus | healthcare_population_bonus | previous_rent
deriving Repr, DecidableEq

/-- Dictionary lookup `state[metric]` (`none` = key absent). -/
def getM (s : CellState) : Metric → Option ℚ
  | .population => s.population
  | .population_density => s.population_density
  | .traffic_congestion => s.traffic_congestion
  | .safety_score => s.safety_score
  | .commercial_vitality => s.commercial_vitality
  | .avg_rent_euro => s.avg_rent_euro
  | .displacement_risk => s.displacement_risk
  | .green_space_ratio => s.green_space_ratio
  | .employment => s.employment
  | .unemployment_rate => s.unemployment_rate
  | .housing_units => s.housing_units
  | .vacancy_rate => s.vacancy_rate
  | .public_transit_accessibility => s.public_transit_accessibility
  | .air_quality_index => s.air_quality_index
  | .social_cohesion_index => s.social_cohesion_index
  | .chargers_count => s.chargers_count
  | .ev_capacity_kw => s.ev_capacity_kw
  | .charger_density_per_sqkm => s.charger_density_per_sqkm
  | .avg_charger_capacity_kw => s.avg_charger_capacity_kw
  | .ev_attractiveness_bonus => s.ev_attractiveness_bonus
  | .policy_population_bonus => s.policy_population_bonus
  | .education_population_bonus => s.education_population_bonus
  | .healthcare_population_bonus => s.healthcare_population_bonus
  | .previous_rent => s.previous_rent

/-- `UrbanModule.calculate_neighbor_influence(cell, neighbors, metric)`:
with no neighbors, the cell's own value (`.get(metric, 0)`); otherwise the
plain average of the neighbors that carry the metric, or `0` when none
carries it. -/
def calculate_neighbor_influence (cell : CellState) (neighbors : List CellState)
    (metric : Metric) : ℚ :=
  if neighbors = [] then oget (getM cell metric) 0
  else
    let present := neighbors.filterMap (fun n => getM n metric)
    let total_influence := present.sum
    let total_weight : ℚ := present.length
    if 0 < total_weight then total_influence / total_weight else 0

/-- `PopulationModule.apply_cell_rules` (area in km² is the cell's
`area_sqkm`). -/
def PopulationModule.apply_cell_rules (area_sqkm : ℚ) (s : CellState) : CellState :=
  let current_pop := oget s.population 1000
  let safety := oget s.safety_score 0.5
  let rent := oget s.avg_rent_euro 500
  let congestion := oget s.traffic_congestion 0.3
  let safety_factor := safety * 100
  let rent_factor := max 0 (1 - rent / 2000) * 100
  let congestion_factor := (1 - congestion) * 50
  let attractiveness := safety_factor * 0.4 + rent_factor * 0.3 + congestion_factor * 0.3
  let ev_bonus := oget s.ev_attractiveness_bonus 0
  let attractiveness := attractiveness * (1 + ev_bonus)
  let migration_rate := (attractiveness - 50) / 100
  let natural_growth := current_pop * 0.005
  let population_change := current_pop * migration_rate * 0.1 + natural_growth
  let new_population := max 100 (current_pop + population_change)
  let s1 := { s with population := some new_population }
  if 0 < area_sqkm then
    { s1 with population_density := some (new_population / area_sqkm) }
  else s1

/-- `TransportationModule.apply_cell_rules`. -/
def TransportationModule.apply_cell_rules (s : CellState)
    (neighbors : List CellState) : CellState :=
  let current_congestion := oget s.traffic_congestion 0.3
  let density := oget s.population_density 0
  let density_factor := min 1 (density / 10000)
  let neighbor_congestion := calculate_neighbor_influence s neighbors .traffic_congestion
  let road_capacity : ℚ := 0.5
  let demand := density_factor * 0.7 + neighbor_congestion * 0.3
  let capacity_utilization := demand / max road_capacity 0.1
  let new_congestion := current_congestion * 0.8 + min 1 capacity_utilization * 0.2
  { s with traffic_congestion := some (max 0 (min 1 new_congestion)) }

/-- The intermediate quantities of `HousingMarketModule.apply_cell_rules`
(source lines 266-274). -/
def HousingMarketModule.housing_units_val (s : CellState) : ℚ :=
  oget s.housing_units (max 400 (oget s.population 1000 / 2.5))

def HousingMarketModule.demand_supply_ratio (s : CellState) : ℚ :=
  let population := oget s.population 1000
  let safety := oget s.safety_score 0.5
  let commercial := oget s.commercial_vitality 0
  let congestion := oget s.traffic_congestion 0.3
  let demand_score := safety * 0.4 + commercial * 0.3 + (1 - congestion) * 0.3
  (population / max (HousingMarketModule.housing_units_val s) 1) * demand_score

/-- `rent_change_pct = min(0.02, max(-0.02, (demand_supply_ratio - 1) * 0.05))`. -/
def HousingMarketModule.rent_change_pct (s : CellState) : ℚ :=
  min 0.02 (max (-0.02) ((HousingMarketModule.demand_supply_ratio s - 1) * 0.05))

/-- `new_rent = current_rent * (1 + rent_change_pct)` before the global clamp. -/
def HousingMarketModule.new_rent (s : CellState) : ℚ :=
  oget s.avg_rent_euro 500 * (1 + HousingMarketModule.rent_change_pct s)

/-- `HousingMarketModule.apply_cell_rules`. -/
def HousingMarketModule.apply_cell_rules (s : CellState) : CellState :=
  let population := oget s.population 1000
  let housing_units := HousingMarketModule.housing_units_val s
  let s1 := { s with housing_units := some housing_units }
  let new_rent := HousingMarketModule.new_rent s
  let s2 := { s1 with avg_rent_euro := some (max 300 (min 3000 new_rent)) }
  let occupancy_rate := min 1 (housing_units / max (population / 2.5) 1)
  let s3 := { s2 with vacancy_rate := some (max 0 (1 - occupancy_rate)) }
  let rent_affordability := 1500 / max new_rent 500
  { s3 with displacement_risk := some (max 0 (min 1 (1 - rent_affordability))) }

/-- `SafetyModule.apply_cell_rules`. -/
def SafetyModule.apply_cell_rules (s : CellState)
    (neighbors : List CellState) : CellState :=
  let current_safety := oget s.safety_score 0.5
  let density := oget s.population_density 0
  let congestion := oget s.traffic_congestion 0.3
  let vacancy := oget s.vacancy_rate 0.02
  let commercial := oget s.commercial_vitality 0
  let green_space := oget s.green_space_ratio 0
  let negative_impact := min 1 (density / 20000) * 0.3 + congestion * 0.3 + vacancy * 0.4
  let positive_impact := commercial * 0.4 + green_space * 0.6
  let net_impact := positive_impact - negative_impact
  let neighbor_safety := calculate_neighbor_influence s neighbors .safety_score
  let safety_change := net_impact * 0.5 + (neighbor_safety - current_safety) * 0.5
  let new_safety := current_safety + safety_change * 0.1
  { s with safety_score := some (max 0 (min 1 new_safety)) }

/-- `CommercialModule.apply_cell_rules`. -/
def CommercialModule.apply_cell_rules (s : CellState)
    (neighbors : List CellState) : CellState :=
  let current_vitality := oget s.commercial_vitality 0
  let population := oget s.population 1000
  let safety := oget s.safety_score 0.5
  let congestion := oget s.traffic_congestion 0.3
  let population_demand := min 1 (population / 5000)
  let accessibility := 1 - congestion
  let base_vitality := population_demand * accessibility * safety
  let neighbor_vitality := calculate_neighbor_influence s neighbors .commercial_vitality
  let vitality_change := base_vitality * 0.6 + neighbor_vitality * 0.4
  let new_vitality := current_vitality * 0.7 + vitality_change * 0.3
  { s with commercial_vitality := some (max 0 (min 1 new_vitality)) }

/-- `EVModule.apply_cell_rules`: a strict no-op when `chargers_count == 0`. -/
def EVModule.apply_cell_rules (s : CellState) : CellState :=
  let charger_density := oget s.charger_density_per_sqkm 0
  let ev_capacity_kw := oget s.ev_capacity_kw 0
  let chargers_count := oget s.chargers_count 0
  if chargers_count = 0 then s
  else
    let current_aqi := oget s.air_quality_index 50
    let aqi_improvement := min 15 (charger_density * 5)
    let s1 := { s with air_quality_index := some (max 0 (current_aqi - aqi_improvement)) }
    let current_rent := oget s1.avg_rent_euro 500
    let ev_premium := ev_capacity_kw * 0.05
    let s2 := { s1 with avg_rent_euro := some (current_rent * (1 + ev_premium / 100)) }
    let s3 := { s2 with ev_attractiveness_bonus := some (min 0.15 (charger_density * 0.1)) }
    let current_employment := oget s3.employment 500
    let ev_jobs := max 0 (ev_capacity_kw / 5)
    let s4 := { s3 with employment := some (current_employment + ev_jobs) }
    let current_cohesion := oget s4.social_cohesion_index 0.5
    let cohesion_boost := min 0.15 (chargers_count * 0.03)
    let s5 := { s4 with social_cohesion_index := some (max 0 (min 1 (current_cohesion + cohesion_boost * 0.1))) }
    let transit_hubs := chargers_count * 0.3
    let current_transit := oget s5.public_transit_accessibility 0
    let transit_boost := min 0.2 (transit_hubs * 0.05)
    { s5 with public_transit_accessibility := some (max 0 (min 1 (current_transit + transit_boost * 0.05))) }

/-- The configurable policy dictionary of `PolicyModule.__init__`. -/
structure Policies where
  ev_subsidy_active : Bool
  ev_subsidy_rent_reduction : ℚ
  ev_subsidy_population_bonus : ℚ
  progressive_tax_active : Bool
  high_rent_threshold : ℚ
  tax_rate : ℚ
  displacement_risk_increase : ℚ
  green_space_mandate_active : Bool
  green_space_target : ℚ
  air_quality_improvement : ℚ
  green_population_bonus : ℚ
  safety_improvement : ℚ
  transit_investment_active : Bool
  transit_accessibility_boost : ℚ
  congestion_reduction : ℚ
  transit_population_bonus : ℚ
  rent_control_active : Bool
  max_rent_increase : ℚ
  displacement_risk_reduction : ℚ
deriving Repr, DecidableEq

/-- The default policies of `PolicyModule.__init__` (rent control inactive). -/
def default_policies : Policies where
  ev_subsidy_active := true
  ev_subsidy_rent_reduction := 0.05
  ev_subsidy_population_bonus := 0.10
  progressive_tax_active := true
  high_rent_threshold := 1200
  tax_rate := 0.08
  displacement_risk_increase := 0.15
  green_space_mandate_active := true
  green_space_target := 0.20
  air_quality_improvement := 0.10
  green_population_bonus := 0.08
  safety_improvement := 0.05
  transit_investment_active := true
  transit_accessibility_boost := 0.20
  congestion_reduction := 0.15
  transit_population_bonus := 0.12
  rent_control_active := false
  max_rent_increase := 0.03
  displacement_risk_reduction := 0.40

/-- The EV-subsidy policy block of `PolicyModule.apply_cell_rules`. -/
def PolicyModule.ev_subsidy_stage (p : Policies) (s : CellState) : CellState :=
  if p.ev_subsidy_active ∧ 0 < oget s.chargers_count 0 then
    let current_rent := oget s.avg_rent_euro 500
    let reduction := current_rent * p.ev_subsidy_rent_reduction
    let sA := { s with avg_rent_euro := some (current_rent - reduction) }
    { sA with policy_population_bonus := some p.ev_subsidy_population_bonus }
  else s

/-- The progressive-tax policy block. -/
def PolicyModule.progressive_tax_stage (p : Policies) (s : CellState) : CellState :=
  if p.progressive_tax_active then
    let current_rent := oget s.avg_rent_euro 500
    if p.high_rent_threshold < current_rent then
      let tax_amount := (current_rent - p.high_rent_threshold) * p.tax_rate
      let sA := { s with avg_rent_euro := some (current_rent - tax_amount) }
      let current_displacement := oget sA.displacement_risk 0
      let displacement_increase := p.displacement_risk_increase * 0.1
      { sA with displacement_risk := some (min 1 (current_displacement + displacement_increase)) }
    else s
  else s

/-- The green-space-mandate policy block. -/
def PolicyModule.green_space_stage (p : Policies) (s : CellState) : CellState :=
  if p.green_space_mandate_active then
    let current_green := oget s.green_space_ratio 0
    let target_green := p.green_space_target
    let improvement := (target_green - current_green) * 0.2
    let new_green := min target_green (current_green + improvement)
    let sA := { s with green_space_ratio := some new_green }
    if 0 < new_green then
      let current_aqi := oget sA.air_quality_index 50
      let aqi_improvement := new_green * p.air_quality_improvement * 10
      let sB := { sA with air_quality_index := some (min 100 (current_aqi + aqi_improvement)) }
      let sC := { sB with policy_population_bonus := some (oget sB.policy_population_bonus 0 + p.green_population_bonus) }
      let current_safety := oget sC.safety_score 0.5
      let safety_boost := new_green * p.safety_improvement
      { sC with safety_score := some (min 1 (current_safety + safety_boost * 0.1)) }
    else sA
  else s

/-- The transit-investment policy block. -/
def PolicyModule.transit_stage (p : Policies) (s : CellState) : CellState :=
  if p.transit_investment_active then
    let current_transit := oget s.public_transit_accessibility 0
    let transit_boost := p.transit_accessibility_boost * 0.1
    let sA := { s with public_transit_accessibility := some (min 1 (current_transit + transit_boost)) }
    let current_congestion := oget sA.traffic_congestion 0.3
    let new_congestion := current_congestion * (1 - p.congestion_reduction * 0.05)
    let sB := { sA with traffic_congestion := some (max 0 new_congestion) }
    { sB with policy_population_bonus := some (oget sB.policy_population_bonus 0 + p.transit_population_bonus) }
  else s

/-- The rent-control policy block. -/
def PolicyModule.rent_control_stage (p : Policies) (s : CellState) : CellState :=
  if p.rent_control_active then
    let current_rent := oget s.avg_rent_euro 500
    let previous_rent := oget s.previous_rent current_rent
    let max_increase := previous_rent * p.max_rent_increase
    let sA :=
      if previous_rent + max_increase < current_rent then
        { s with avg_rent_euro := some (previous_rent + max_increase) }
      else s
    let current_displacement := oget sA.displacement_risk 0
    let reduction := current_displacement * p.displacement_risk_reduction
    { sA with displacement_risk := some (max 0 (current_displacement - reduction * 0.1)) }
  else s

/-- `PolicyModule.apply_cell_rules`: the five policy blocks in source order,
then the `_previous_rent` store. -/
def PolicyModule.apply_cell_rules (p : Policies) (s : CellState) : CellState :=
  let s5 := PolicyModule.rent_control_stage p
    (PolicyModule.transit_stage p
      (PolicyModule.green_space_stage p
        (PolicyModule.progressive_tax_stage p
          (PolicyModule.ev_subsidy_stage p s))))
  { s5 with previous_rent := some (oget s5.avg_rent_euro 500) }

/-- `EducationModule.apply_cell_rules`. -/
def EducationModule.apply_cell_rules (s : CellState) : CellState :=
  let population := oget s.population 1000
  let estimated_schools := max 0 (population / 2000)
  let school_bonus := min 0.30 (estimated_schools * 0.10)
  let s1 := { s with education_population_bonus := some school_bonus }
  let current_rent := oget s1.avg_rent_euro 500
  let school_premium := estimated_schools * 100
  let s2 := { s1 with avg_rent_euro := some (current_rent + school_premium / 100) }
  let current_employment := oget s2.employment 500
  let education_jobs := estimated_schools * 10
  let s3 := { s2 with employment := some (current_employment + education_jobs) }
  let current_cohesion := oget s3.social_cohesion_index 0.5
  let cohesion_boost := min 0.20 (estimated_schools * 0.08)
  { s3 with social_cohesion_index := some (max 0 (min 1 (current_cohesion + cohesion_boost * 0.1))) }

/-- `HealthcareModule.apply_cell_rules`. -/
def HealthcareModule.apply_cell_rules (s : CellState) : CellState :=
  let population := oget s.population 1000
  let estimated_facilities := max 0 (population / 3000)
  let current_safety := oget s.safety_score 0.5
  let healthcare_safety_boost := min 0.15 (estimated_facilities * 0.05)
  let s1 := { s with safety_score := some (min 1 (current_safety + healthcare_safety_boost * 0.1)) }
  let healthcare_bonus := min 0.25 (estimated_facilities * 0.08)
  let s2 := { s1 with healthcare_population_bonus := some healthcare_bonus }
  let current_rent := oget s2.avg_rent_euro 500
  let healthcare_premium := estimated_facilities * 80
  let s3 := { s2 with avg_rent_euro := some (current_rent + healthcare_premium / 100) }
  let current_employment := oget s3.employment 500
  let healthcare_jobs := estimated_facilities * 15
  let s4 := { s3 with employment := some (current_employment + healthcare_jobs) }
  let current_cohesion := oget s4.social_cohesion_index 0.5
  let cohesion_boost := min 0.18 (estimated_facilities * 0.06)
  { s4 with social_cohesion_index := some (max 0 (min 1 (current_cohesion + cohesion_boost * 0.1))) }

/-- The prosperity spillover block of `SpatialEffectsModule.apply_cell_rules`
as it acts on the neighbor at list position `i`: only the first up-to-4
neighbors (`neighbors[:4]`), and only when the source cell is prosperous
(`employment > 600 and avg_rent > 600`). -/
def SpatialEffectsModule.prosperity_phase (cell n : CellState) (i : ℕ) : CellState :=
  let current_employment := oget cell.employment 500
  let current_rent := oget cell.avg_rent_euro 500
  if 600 < current_employment ∧ 600 < current_rent ∧ i < 4 then
    let spillover_employment := current_employment * 0.05
    let nA := { n with employment := some (oget n.employment 500 + spillover_employment) }
    let spillover_rent := current_rent * 0.03
    { nA with avg_rent_euro := some (oget nA.avg_rent_euro 500 + spillover_rent) }
  else n

/-- The gentrification/displacement block, acting on one neighbor. -/
def SpatialEffectsModule.gentrification_phase (cell n : CellState) : CellState :=
  let current_rent := oget cell.avg_rent_euro 500
  if 800 < current_rent then
    let neighbor_displacement := oget n.displacement_risk 0
    let gentrification_pressure := 0.05 * (current_rent - 800) / 500
    let new_displacement := min 1 (neighbor_displacement + gentrification_pressure * 0.1)
    let nA := { n with displacement_risk := some new_displacement }
    if 0.3 < new_displacement then
      let population_loss := oget nA.population 1000 * new_displacement * 0.02
      { nA with population := some (max 500 (oget nA.population 1000 - population_loss)) }
    else nA
  else n

/-- The air-quality spillover block, acting on one neighbor. -/
def SpatialEffectsModule.air_quality_phase (cell n : CellState) : CellState :=
  let current_aqi := oget cell.air_quality_index 50
  let neighbor_aqi := oget n.air_quality_index 50
  let aqi_diff := current_aqi - neighbor_aqi
  if 5 < |aqi_diff| then
    let spillover_aqi := aqi_diff * 0.15
    { n with air_quality_index := some (max 0 (min 100 (neighbor_aqi + spillover_aqi))) }
  else n

/-- The safety spillover block, acting on one neighbor. -/
def SpatialEffectsModule.safety_phase (cell n : CellState) : CellState :=
  let current_safety := oget cell.safety_score 0.5
  let neighbor_safety := oget n.safety_score 0.5
  let safety_diff := current_safety - neighbor_safety
  if 0.1 < |safety_diff| then
    let spillover_safety := safety_diff * 0.1
    { n with safety_score := some (max 0 (min 1 (neighbor_safety + spillover_safety))) }
  else n

/-- The population-attraction spillover block, acting on one neighbor. -/
def SpatialEffectsModule.population_phase (cell n : CellState) : CellState :=
  let current_vitality := oget cell.commercial_vitality 0
  let current_population := oget cell.population 1000
  if 0.7 < current_vitality ∧ 2000 < current_population then
    let spillover_population := current_population * 0.02
    { n with population := some (oget n.population 1000 + spillover_population) }
  else n

/-- The social-cohesion agglomeration block, acting on one neighbor. -/
def SpatialEffectsModule.cohesion_phase (cell n : CellState) : CellState :=
  let current_cohesion := oget cell.social_cohesion_index 0.5
  if 0.6 < current_cohesion then
    let neighbor_cohesion := oget n.social_cohesion_index 0.5
    let cohesion_spillover := (current_cohesion - neighbor_cohesion) * 0.08
    { n with social_cohesion_index := some (min 1 (neighbor_cohesion + cohesion_spillover * 0.1)) }
  else n

/-- The congestion spillover block, acting on one neighbor. -/
def SpatialEffectsModule.congestion_phase (cell n : CellState) : CellState :=
  let current_congestion := oget cell.traffic_congestion 0.3
  let neighbor_congestion := oget n.traffic_congestion 0.3
  let congestion_diff := current_congestion - neighbor_congestion
  if 0.1 < congestion_diff then
    let spillover_congestion := congestion_diff * 0.12
    { n with traffic_congestion := some (min 1 (neighbor_congestion + spillover_congestion)) }
  else n

/-- The full update `SpatialEffectsModule.apply_cell_rules` performs on the
neighbor at position `i` of the neighbor list (the source cell itself is
never written by this module).  The source runs one `for neighbor in ...`
loop per block and no block writes the source cell, so over one application
the blocks compose independently on each neighbor. -/
def SpatialEffectsModule.neighbor_update (cell : CellState) (n : CellState)
    (i : ℕ) : CellState :=
  SpatialEffectsModule.congestion_phase cell
    (SpatialEffectsModule.cohesion_phase cell
      (SpatialEffectsModule.population_phase cell
        (SpatialEffectsModule.safety_phase cell
          (SpatialEffectsModule.air_quality_phase cell
            (SpatialEffectsModule.gentrification_phase cell
              (SpatialEffectsModule.prosperity_phase cell n i))))))

/-- The neighbor list after `SpatialEffectsModule.apply_cell_rules`,
updating the neighbor at list position `i` (starting from `i0`). -/
def SpatialEffectsModule.neighbors_update (cell : CellState) (i0 : ℕ) :
    List CellState → List CellState
  | [] => []
  | n :: ns =>
    SpatialEffectsModule.neighbor_update cell n i0 ::
      SpatialEffectsModule.neighbors_update cell (i0 + 1) ns

/-- `SpatialEffectsModule.apply_cell_rules`: returns the (unchanged) acting
cell and the mutated neighbor list; with no neighbors it returns at once. -/
def SpatialEffectsModule.apply_cell_rules (cell : CellState)
    (neighbors : List CellState) : CellState × List CellState :=
  if neighbors = [] then (cell, neighbors)
  else (cell, SpatialEffectsModule.neighbors_update cell 0 neighbors)

/-- A rule module (`UrbanModule` of the source): a display name, the numeric
`priority` from its config dictionary, and its `apply_cell_rules` operation.
The operation receives the acting cell's `area_sqkm`, the cell state and the
neighbor states, and returns the new cell state together with the neighbor
states (the source mutates the aliased neighbor objects in place; here the
caller writes the returned list back into the store). -/
structure UrbanModule where
  name : String
  priority : ℤ
  apply_cell_rules : ℚ → CellState → List CellState → CellState × List CellState

def PopulationModule.toModule : UrbanModule where
  name := "Population"
  priority := 1
  apply_cell_rules := fun area c ns => (PopulationModule.apply_cell_rules area c, ns)

def TransportationModule.toModule : UrbanModule where
  name := "Transportation"
  priority := 2
  apply_cell_rules := fun _ c ns => (TransportationModule.apply_cell_rules c ns, ns)

def HousingMarketModule.toModule : UrbanModule where
  name := "Housing Market"
  priority := 3
  apply_cell_rules := fun _ c ns => (HousingMarketModule.apply_cell_rules c, ns)

def SafetyModule.toModule : UrbanModule where
  name := "Safety"
  priority := 4
  apply_cell_rules := fun _ c ns => (SafetyModule.apply_cell_rules c ns, ns)

def CommercialModule.toModule : UrbanModule where
  name := "Commercial"
  priority := 5
  apply_cell_rules := fun _ c ns => (CommercialModule.apply_cell_rules c ns, ns)

def EVModule.toModule : UrbanModule where
  name := "EV Infrastructure"
  priority := 0
  apply_cell_rules := fun _ c ns => (EVModule.apply_cell_rules c, ns)

def PolicyModule.toModule : UrbanModule where
  name := "Policy Intervention"
  priority := 2
  apply_cell_rules := fun _ c ns => (PolicyModule.apply_cell_rules default_policies c, ns)

def EducationModule.toModule : UrbanModule where
  name := "Education"
  priority := 3
  apply_cell_rules := fun _ c ns => (EducationModule.apply_cell_rules c, ns)

def HealthcareModule.toModule : UrbanModule where
  name := "Healthcare"
  priority := 4
  apply_cell_rules := fun _ c ns => (HealthcareModule.apply_cell_rules c, ns)

def SpatialEffectsModule.toModule : UrbanModule where
  name := "Spatial Effects"
  priority := 5
  apply_cell_rules := fun _ c ns => SpatialEffectsModule.apply_cell_rules c ns

/-- `UrbanModel.get_default_modules`: the registration order of the default
module list (the comments in the source state the priorities; the list is not
sorted by them). -/
def UrbanModel.get_default_modules : List UrbanModule :=
  [EVModule.toModule, PolicyModule.toModule, EducationModule.toModule,
   HealthcareModule.toModule, SpatialEffectsModule.toModule,
   PopulationModule.toModule, TransportationModule.toModule,
   HousingMarketModule.toModule, SafetyModule.toModule, CommercialModule.toModule]

/-- `UrbanCell.step`: apply every module of the list, in list order, to the
cell and its neighbor list. -/
def UrbanCell.step (modules : List UrbanModule) (area_sqkm : ℚ)
    (cell : CellState) (neighbors : List CellState) : CellState × List CellState :=
  modules.foldl (fun cn m => m.apply_cell_rules area_sqkm cn.1 cn.2) (cell, neighbors)

/-- The model's cell store: grid id → cell state (`UrbanModel.cells`). -/
def setCell (cm : ℕ → CellState) (i : ℕ) (s : CellState) : ℕ → CellState :=
  fun j => if j = i then s else cm j

def writeCells (cm : ℕ → CellState) : List (ℕ × CellState) → (ℕ → CellState)
  | [] => cm
  | p :: rest => writeCells (setCell cm p.1 p.2) rest

/-- The derived read-only topology of a model: per grid id, the cell's area
and its neighbor ids. -/
structure GridTopology where
  area_sqkm : ℕ → ℚ
  nbhd : ℕ → List ℕ

/-- One module application of a cell's `step` viewed at the level of the cell
store: read the acting cell and its neighbors, run the module, write the cell
and the neighbors back (the source mutates the aliased neighbor objects, so
the next module of the pipeline sees these writes). -/
def apply_module_at (g : GridTopology) (m : UrbanModule) (cm : ℕ → CellState)
    (cid : ℕ) : ℕ → CellState :=
  let nbIds := g.nbhd cid
  let res := m.apply_cell_rules (g.area_sqkm cid) (cm cid) (nbIds.map cm)
  writeCells (setCell cm cid res.1) (nbIds.zip res.2)

/-- Processing one cell during `UrbanModel.step`: the full module pipeline in
registration order. -/
def process_cell (g : GridTopology) (modules : List UrbanModule)
    (cm : ℕ → CellState) (cid : ℕ) : ℕ → CellState :=
  modules.foldl (fun cm m => apply_module_at g m cm cid) cm

/-- `UrbanModel.step`: process every cell of the (shuffled) order list
sequentially. -/
def UrbanModel.step (g : GridTopology) (modules : List UrbanModule)
    (order : List ℕ) (cm : ℕ → CellState) : ℕ → CellState :=
  order.foldl (fun cm cid => process_cell g modules cm cid) cm

/-- `UrbanModel.run_simulation(steps)`: run the steps (the cell-processing
order of timestep `t` is `orders t`, modelling the per-step shuffle) and save
a snapshot of all cells after step `k+1` exactly when `(k+1) % 10 == 0` or
`k+1 == steps`.  Returns the final store and the (timestep, snapshot) list. -/
def UrbanModel.run_simulation (g : GridTopology) (modules : List UrbanModule)
    (orders : ℕ → List ℕ) (cm₀ : ℕ → CellState) (steps : ℕ) :
    (ℕ → CellState) × List (ℕ × (ℕ → CellState)) :=
  (List.range steps).foldl
    (fun st k =>
      let cm := UrbanModel.step g modules (orders (k + 1)) st.1
      if (k + 1) % 10 = 0 ∨ (k + 1) = steps then (cm, st.2 ++ [(k + 1, cm)])
      else (cm, st.2))
    (cm₀, [])

/-- The timesteps after which `run_simulation` saves a snapshot. -/
def snapshot_steps (steps : ℕ) : List ℕ :=
  (List.range steps).filterMap
    (fun k => if (k + 1) % 10 = 0 ∨ (k + 1) = steps then some (k + 1) else none)

/-- One record of the loader's `{grid_id, geometry, initial_state}` list
(the geometry only ever contributes the derived `area_sqkm`). -/
structure GridCellData where
  grid_id : ℕ
  area_sqkm : ℚ
  initial_state : CellState

/-- `int(np.ceil(np.sqrt(n)))`. -/
def grid_size (n : ℕ) : ℕ := if n.sqrt * n.sqrt = n then n.sqrt else n.sqrt + 1

/-- The default state dictionary of `UrbanCell.__init__`, used when the
loader passes an empty `initial_state` (the `charger_types` dictionary is not
a numeric metric and is not modelled). -/
def UrbanCell.default_state : CellState where
  population := some 1000
  population_density := some 0
  traffic_congestion := some 0.3
  safety_score := some 0.5
  commercial_vitality := some 0
  avg_rent_euro := some 500
  displacement_risk := some 0
  green_space_ratio := some 0
  employment := some 500
  unemployment_rate := some 0.05
  housing_units := some 400
  vacancy_rate := some 0.02
  public_transit_accessibility := some 0
  air_quality_index := some 50
  social_cohesion_index := some 0.5
  chargers_count := some 0
  ev_capacity_kw := some 0
  charger_density_per_sqkm := some 0
  avg_charger_capacity_kw := some 0

/-- `UrbanCell.__init__`: `initial_state or {defaults}`, then the initial
density `population / area` when the area is positive (the source indexes
`state['population']` directly there, so a state lacking the key would
fault; that path updates nothing here). -/
def UrbanCell.init_state (area_sqkm : ℚ) (initial_state : CellState) : CellState :=
  let s := if initial_state = ({} : CellState) then UrbanCell.default_state else initial_state
  if 0 < area_sqkm then
    match s.population with
    | some p => { s with population_density := some (p / area_sqkm) }
    | none => s
  else s

/-- The `(dx, dy)` loop order of `UrbanModel.get_neighbors`. -/
def moore_offsets : List (ℤ × ℤ) :=
  [(-1, -1), (-1, 0), (-1, 1), (0, -1), (0, 1), (1, -1), (1, 0), (1, 1)]

/-- `UrbanModel.get_neighbors`: the grid position of the cell with list index
`idx` is `(idx % size, idx / size)` with `size = grid_size N`; for each Moore
offset, the first cell at that position (if any). -/
def UrbanModel.get_neighbors (cells : List GridCellData) (gid : ℕ) : List ℕ :=
  let size := grid_size cells.length
  match cells.findIdx? (fun c => c.grid_id == gid) with
  | none => []
  | some idx =>
    let x := idx % size
    let y := idx / size
    moore_offsets.filterMap (fun d =>
      ((List.range cells.length).find? (fun j =>
          (((j % size : ℕ) : ℤ) == (x : ℤ) + d.1) && (((j / size : ℕ) : ℤ) == (y : ℤ) + d.2))).bind
        (fun j => (cells.get? j).map (fun c => c.grid_id)))

/-- The topology `UrbanModel.__init__` derives from the loader's cell list. -/
def UrbanModel.topology (cells : List GridCellData) : GridTopology where
  area_sqkm := fun gid =>
    (((cells.find? (fun c => c.grid_id == gid)).map (fun c => c.area_sqkm)).getD 1)
  nbhd := UrbanModel.get_neighbors cells

/-- The initial cell store `UrbanModel.__init__` builds from the loader's
cell list (an unknown grid id reads as the empty dictionary). -/
def UrbanModel.init_cells (cells : List GridCellData) : ℕ → CellState :=
  fun gid =>
    ((cells.find? (fun c => c.grid_id == gid)).map
      (fun c => UrbanCell.init_state c.area_sqkm c.initial_state)).getD ({} : CellState)

/-- `SimulationManager.run_test_simulation`: when the loader provides no grid
cells the run does not start and the caller receives `none` instead of a run
handle; otherwise the model is built, run, and its snapshots returned. -/
def SimulationManager.run_test_simulation (grid_cells : List GridCellData)
    (orders : ℕ → List ℕ) (steps : ℕ) : Option (List (ℕ × (ℕ → CellState))) :=
  if grid_cells.isEmpty then none
  else
    some (UrbanModel.run_simulation (UrbanModel.topology grid_cells)
      UrbanModel.get_default_modules orders (UrbanModel.init_cells grid_cells) steps).2

/-- The declared range invariant of the six probability/score metrics, read
with the default every module's `get` call uses. -/
def ScoreInv (s : CellState) : Prop :=
  (0 ≤ oget s.safety_score 0.5 ∧ oget s.safety_score 0.5 ≤ 1) ∧
  (0 ≤ oget s.displacement_risk 0 ∧ oget s.displacement_risk 0 ≤ 1) ∧
  (0 ≤ oget s.social_cohesion_index 0.5 ∧ oget s.social_cohesion_index 0.5 ≤ 1) ∧
  (0 ≤ oget s.vacancy_rate 0.02 ∧ oget s.vacancy_rate 0.02 ≤ 1) ∧
  (0 ≤ oget s.green_space_ratio 0 ∧ oget s.green_space_ratio 0 ≤ 1) ∧
  (0 ≤ oget s.public_transit_accessibility 0 ∧ oget s.public_transit_accessibility 0 ≤ 1)

/-- `ScoreInv` together with non-negativity of a stored `housing_units`
value (in-range initial data has a non-negative housing stock; the value the
Housing Market module stores when the key is absent is `≥ 400`). -/
def StateInv (s : CellState) : Prop :=
  ScoreInv s ∧ ∀ h, s.housing_units = some h → 0 ≤ h

/-- Every cell of the store satisfies `StateInv`. -/
def StoreInv (cm : ℕ → CellState) : Prop := ∀ j, StateInv (cm j)

/-- A cell state with every declared metric inside its documented range
(scores in [0,1], rent in [300,3000], population ≥ 100) and one charger:
the state the loader shape produces with the EV aggregates joined in. -/
def rent_floor_cex : CellState where
  population := some 1000
  traffic_congestion := some 0.3
  safety_score := some 0.5
  commercial_vitality := some 0
  avg_rent_euro := some 300
  displacement_risk := some 0
  green_space_ratio := some 0
  employment := some 500
  unemployment_rate := some 0.05
  chargers_count := some 1
  ev_capacity_kw := some 0
  charger_density_per_sqkm := some 0

/-- Cell A of the spec's two-cell prosperity scenario. -/
def prosperity_source : CellState where
  avg_rent_euro := some 900
  employment := some 700

/-- Cell B of the spec's two-cell prosperity scenario. -/
def prosperity_neighbor : CellState where
  avg_rent_euro := some 500
  employment := some 400

lemma clamp01_nonneg (x : ℚ) : 0 ≤ max 0 (min 1 x) := le_max_left 0 _

lemma clamp01_le_one (x : ℚ) : max 0 (min 1 x) ≤ 1 :=
  max_le (by norm_num) (min_le_left 1 x)

lemma min_one_mem (x : ℚ) (hx : 0 ≤ x) : 0 ≤ min 1 x ∧ min 1 x ≤ 1 :=
  ⟨le_min (by norm_num) hx, min_le_left 1 x⟩

/-- C7: in every application of the Housing Market module the relative rent
change applied before the global clamp is bounded: the pre-clamp rent equals
the prior rent times `1 + r` with `r ∈ [-0.02, 0.02]`, and the stored rent is
the `[300, 3000]` clamp of that value. -/
theorem C7_rent_change_bounded (s : CellState) :
    -0.02 ≤ HousingMarketModule.rent_change_pct s ∧
    HousingMarketModule.rent_change_pct s ≤ 0.02 ∧
    HousingMarketModule.new_rent s =
      oget s.avg_rent_euro 500 * (1 + HousingMarketModule.rent_change_pct s) ∧
    (HousingMarketModule.apply_cell_rules s).avg_rent_euro =
      some (max 300 (min 3000 (HousingMarketModule.new_rent s))) := by
  refine ⟨le_min (by norm_num) (le_max_left _ _), min_le_left _ _, rfl, rfl⟩

/-- C6: for a cell whose `chargers_count` metric reads 0, one application of
the EV/Infrastructure module changes no metric at all, of the cell or of its
neighbors. -/
theorem C6_ev_infrastructure_noop (area_sqkm : ℚ) (s : CellState)
    (neighbors : List CellState) (h : oget s.chargers_count 0 = 0) :
    EVModule.apply_cell_rules s = s ∧
    EVModule.toModule.apply_cell_rules area_sqkm s neighbors = (s, neighbors) := by
  have h1 : EVModule.apply_cell_rules s = s := by
    unfold EVModule.apply_cell_rules
    simp [h]
  exact ⟨h1, by simp [EVModule.toModule, h1]⟩

/-- Witness for C6: the all-defaults cell state (no `chargers_count` key, so
the read defaults to 0) is untouched by the EV module. -/
theorem C6_ev_infrastructure_noop_witness :
    EVModule.apply_cell_rules ({} : CellState) = ({} : CellState) ∧
    EVModule.toModule.apply_cell_rules 1 ({} : CellState) [] = (({} : CellState), []) :=
  C6_ev_infrastructure_noop 1 {} [] rfl

/-- C9: when initialization loads zero cells, `run_test_simulation` returns
`none` — the model is never built and no step runs; with at least one cell it
returns a run result. -/
theorem C9_no_cells_no_run :
    (∀ orders steps, SimulationManager.run_test_simulation [] orders steps = none) ∧
    (∀ grid_cells orders steps, grid_cells ≠ ([] : List GridCellData) →
        SimulationManager.run_test_simulation grid_cells orders steps =
          some (UrbanModel.run_simulation (UrbanModel.topology grid_cells)
            UrbanModel.get_default_modules orders (UrbanModel.init_cells grid_cells) steps).2) := by
  constructor
  · intro orders steps; rfl
  · intro grid_cells orders steps h
    cases grid_cells with
    | nil => exact absurd rfl h
    | cons a t => rfl

theorem run_simulation_snapshots_aux (g : GridTopology) (modules : List UrbanModule)
    (orders : ℕ → List ℕ) (steps : ℕ) :
    ∀ (l : List ℕ) (cm : ℕ → CellState) (acc : List (ℕ × (ℕ → CellState))),
      ((l.foldl (fun st k =>
          let cm := UrbanModel.step g modules (orders (k + 1)) st.1
          if (k + 1) % 10 = 0 ∨ (k + 1) = steps then (cm, st.2 ++ [(k + 1, cm)])
          else (cm, st.2)) (cm, acc)).2).map Prod.fst =
        acc.map Prod.fst ++ l.filterMap
          (fun k => if (k + 1) % 10 = 0 ∨ (k + 1) = steps then some (k + 1) else none) := by
  intro l
  induction l with
  | nil => intro cm acc; simp
  | cons k l ih =>
    intro cm acc
    by_cases h : (k + 1) % 10 = 0 ∨ (k + 1) = steps
    · simp only [List.foldl_cons, List.filterMap_cons, if_pos h, ih]
      simp
    · simp only [List.foldl_cons, List.filterMap_cons, if_neg h, ih]

/-- C5: during `run_simulation(steps)` a snapshot is saved after step `s`
exactly when `s % 10 == 0` or `s == steps`; a run with `steps = 50` saves
exactly the 5 snapshots at timesteps 10, 20, 30, 40, 50. -/
theorem C5_snapshot_schedule :
    (∀ g modules orders cm₀ steps,
        ((UrbanModel.run_simulation g modules orders cm₀ steps).2.map Prod.fst) =
          snapshot_steps steps) ∧
    (∀ steps s, s ∈ snapshot_steps steps ↔
        (1 ≤ s ∧ s ≤ steps ∧ (s % 10 = 0 ∨ s = steps))) ∧
    snapshot_steps 50 = [10, 20, 30, 40, 50] ∧
    (snapshot_steps 50).length = 5 := by
  refine ⟨?_, ?_, by decide, by decide⟩
  · intro g modules orders cm₀ steps
    unfold UrbanModel.run_simulation snapshot_steps
    rw [run_simulation_snapshots_aux g modules orders steps (List.range steps) cm₀ []]
    simp
  · intro steps s
    unfold snapshot_steps
    simp only [List.mem_filterMap, List.mem_range]
    constructor
    · rintro ⟨k, hk, hsome⟩
      by_cases hc : (k + 1) % 10 = 0 ∨ (k + 1) = steps
      · rw [if_pos hc] at hsome
        have : s = k + 1 := by injection hsome with h; omega
        subst this
        exact ⟨by omega, by omega, hc⟩
      · rw [if_neg hc] at hsome
        exact absurd hsome (by simp)
    · rintro ⟨h1, h2, h3⟩
      refine ⟨s - 1, by omega, ?_⟩
      have hs : s - 1 + 1 = s := by omega
      rw [hs, if_pos h3]

/-- C8: with the shuffle replaced by a fixed per-step processing order and a
fixed module list, the run is a function of the initial cell states alone:
two runs from (extensionally) identical initial states produce identical
final states and identical per-timestep snapshots. -/
theorem C8_run_deterministic (g : GridTopology) (modules : List UrbanModule)
    (orders : ℕ → List ℕ) (steps : ℕ) (cm₁ cm₂ : ℕ → CellState)
    (h : ∀ j, cm₁ j = cm₂ j) :
    UrbanModel.run_simulation g modules orders cm₁ steps =
      UrbanModel.run_simulation g modules orders cm₂ steps := by
  rw [funext h]

/-- Witness for C8: two concrete three-step runs from the default initial
store coincide. -/
theorem C8_run_deterministic_witness :
    UrbanModel.run_simulation ⟨fun _ => 1, fun _ => []⟩ UrbanModel.get_default_modules
      (fun _ => [0]) (fun _ => UrbanCell.default_state) 3 =
    UrbanModel.run_simulation ⟨fun _ => 1, fun _ => []⟩ UrbanModel.get_default_modules
      (fun _ => [0]) (fun _ => UrbanCell.default_state) 3 :=
  C8_run_deterministic _ _ _ 3 _ _ (fun _ => rfl)

/-- C10: `calculate_neighbor_influence` returns the cell's own stored value
of the metric when the neighbor list is empty (and 0 when the cell lacks the
key, matching its `get(metric, 0)`), returns 0 when no neighbor carries the
metric, and hence the neighbor-average terms of the Transportation, Safety
and Commercial formulas equal the cell's own current value of the respective
metric for a cell with no neighbors. -/
theorem C10_neighbor_influence :
    (∀ cell metric,
        calculate_neighbor_influence cell [] metric = oget (getM cell metric) 0) ∧
    (∀ cell metric v, getM cell metric = some v →
        calculate_neighbor_influence cell [] metric = v) ∧
    (∀ cell neighbors metric, neighbors ≠ ([] : List CellState) →
        (∀ n ∈ neighbors, getM n metric = none) →
        calculate_neighbor_influence cell neighbors metric = 0) ∧
    (∀ cell v, cell.traffic_congestion = some v →
        calculate_neighbor_influence cell [] Metric.traffic_congestion = v) ∧
    (∀ cell v, cell.safety_score = some v →
        calculate_neighbor_influence cell [] Metric.safety_score = v) ∧
    (∀ cell v, cell.commercial_vitality = some v →
        calculate_neighbor_influence cell [] Metric.commercial_vitality = v) := by
  have base : ∀ cell metric,
      calculate_neighbor_influence cell [] metric = oget (getM cell metric) 0 := by
    intro cell metric; rfl
  refine ⟨base, ?_, ?_, ?_, ?_, ?_⟩
  · intro cell metric v h; rw [base, h]; rfl
  · intro cell neighbors metric hne hall
    unfold calculate_neighbor_influence
    rw [if_neg hne]
    have hnil : neighbors.filterMap (fun n => getM n metric) = [] := by
      simp only [List.filterMap_eq_nil_iff]
      exact hall
    simp [hnil]
  · intro cell v h; rw [base]; simp [getM, h, oget]
  · intro cell v h; rw [base]; simp [getM, h, oget]
  · intro cell v h; rw [base]; simp [getM, h, oget]

/-- C4: within one step of one cell the pipeline applies the modules exactly
in registration order (head of the list first, then the tail); the declared
`priority` field is never consulted — rewriting every priority changes
nothing — and the default module list is registered in an order whose
priority sequence `[0,2,3,4,5,1,2,3,4,5]` is not sorted. -/
theorem C4_registration_order_not_priority :
    (∀ area_sqkm cell neighbors,
        UrbanCell.step [] area_sqkm cell neighbors = (cell, neighbors)) ∧
    (∀ (m : UrbanModule) (ms : List UrbanModule) area_sqkm cell neighbors,
        UrbanCell.step (m :: ms) area_sqkm cell neighbors =
          UrbanCell.step ms area_sqkm (m.apply_cell_rules area_sqkm cell neighbors).1
            (m.apply_cell_rules area_sqkm cell neighbors).2) ∧
    (∀ (ms : List UrbanModule) (f : UrbanModule → ℤ) area_sqkm cell neighbors,
        UrbanCell.step (ms.map fun m => { m with priority := f m }) area_sqkm cell neighbors =
          UrbanCell.step ms area_sqkm cell neighbors) ∧
    (∀ (ms : List UrbanModule) (f : UrbanModule → ℤ) g order cm,
        UrbanModel.step g (ms.map fun m => { m with priority := f m }) order cm =
          UrbanModel.step g ms order cm) ∧
    UrbanModel.get_default_modules.map UrbanModule.priority = [0, 2, 3, 4, 5, 1, 2, 3, 4, 5] ∧
    ¬ List.Sorted (· ≤ ·) (UrbanModel.get_default_modules.map UrbanModule.priority) := by
  refine ⟨fun _ _ _ => rfl, fun _ _ _ _ _ => rfl, ?_, ?_, by decide, by decide⟩
  · intro ms f area_sqkm cell neighbors
    simp only [UrbanCell.step, List.foldl_map]
  · intro ms f g order cm
    have hp : ∀ cm cid,
        process_cell g (ms.map fun m => { m with priority := f m }) cm cid =
          process_cell g ms cm cid := by
      intro cm cid
      simp only [process_cell, List.foldl_map]
      rfl
    simp only [UrbanModel.step, hp]

lemma gentrification_phase_emp_rent (cell n : CellState) :
    (SpatialEffectsModule.gentrification_phase cell n).employment = n.employment ∧
    (SpatialEffectsModule.gentrification_phase cell n).avg_rent_euro = n.avg_rent_euro := by
  unfold SpatialEffectsModule.gentrification_phase
  dsimp only
  split
  · split <;> exact ⟨rfl, rfl⟩
  · exact ⟨rfl, rfl⟩

lemma air_quality_phase_emp_rent (cell n : CellState) :
    (SpatialEffectsModule.air_quality_phase cell n).employment = n.employment ∧
    (SpatialEffectsModule.air_quality_phase cell n).avg_rent_euro = n.avg_rent_euro := by
  unfold SpatialEffectsModule.air_quality_phase
  dsimp only
  split <;> exact ⟨rfl, rfl⟩

lemma safety_phase_emp_rent (cell n : CellState) :
    (SpatialEffectsModule.safety_phase cell n).employment = n.employment ∧
    (SpatialEffectsModule.safety_phase cell n).avg_rent_euro = n.avg_rent_euro := by
  unfold SpatialEffectsModule.safety_phase
  dsimp only
  split <;> exact ⟨rfl, rfl⟩

lemma population_phase_emp_rent (cell n : CellState) :
    (SpatialEffectsModule.population_phase cell n).employment = n.employment ∧
    (SpatialEffectsModule.population_phase cell n).avg_rent_euro = n.avg_rent_euro := by
  unfold SpatialEffectsModule.population_phase
  dsimp only
  split <;> exact ⟨rfl, rfl⟩

lemma cohesion_phase_emp_rent (cell n : CellState) :
    (SpatialEffectsModule.cohesion_phase cell n).employment = n.employment ∧
    (SpatialEffectsModule.cohesion_phase cell n).avg_rent_euro = n.avg_rent_euro := by
  unfold SpatialEffectsModule.cohesion_phase
  dsimp only
  split <;> exact ⟨rfl, rfl⟩

lemma congestion_phase_emp_rent (cell n : CellState) :
    (SpatialEffectsModule.congestion_phase cell n).employment = n.employment ∧
    (SpatialEffectsModule.congestion_phase cell n).avg_rent_euro = n.avg_rent_euro := by
  unfold SpatialEffectsModule.congestion_phase
  dsimp only
  split <;> exact ⟨rfl, rfl⟩

/-- Of the whole per-neighbor spatial update, only the prosperity block can
touch the neighbor's `employment` and `avg_rent_euro`. -/
lemma neighbor_update_emp_rent (cell n : CellState) (i : ℕ) :
    (SpatialEffectsModule.neighbor_update cell n i).employment =
      (SpatialEffectsModule.prosperity_phase cell n i).employment ∧
    (SpatialEffectsModule.neighbor_update cell n i).avg_rent_euro =
      (SpatialEffectsModule.prosperity_phase cell n i).avg_rent_euro := by
  unfold SpatialEffectsModule.neighbor_update
  constructor
  · rw [(congestion_phase_emp_rent _ _).1, (cohesion_phase_emp_rent _ _).1,
      (population_phase_emp_rent _ _).1, (safety_phase_emp_rent _ _).1,
      (air_quality_phase_emp_rent _ _).1, (gentrification_phase_emp_rent _ _).1]
  · rw [(congestion_phase_emp_rent _ _).2, (cohesion_phase_emp_rent _ _).2,
      (population_phase_emp_rent _ _).2, (safety_phase_emp_rent _ _).2,
      (air_quality_phase_emp_rent _ _).2, (gentrification_phase_emp_rent _ _).2]

lemma prosperity_phase_fires (cell n : CellState) (i : ℕ)
    (h : 600 < oget cell.employment 500 ∧ 600 < oget cell.avg_rent_euro 500 ∧ i < 4) :
    (SpatialEffectsModule.prosperity_phase cell n i).employment =
      some (oget n.employment 500 + oget cell.employment 500 * 0.05) ∧
    (SpatialEffectsModule.prosperity_phase cell n i).avg_rent_euro =
      some (oget n.avg_rent_euro 500 + oget cell.avg_rent_euro 500 * 0.03) := by
  unfold SpatialEffectsModule.prosperity_phase
  dsimp only
  rw [if_pos h]
  exact ⟨rfl, rfl⟩

lemma prosperity_phase_skips (cell n : CellState) (i : ℕ)
    (h : ¬ (600 < oget cell.employment 500 ∧ 600 < oget cell.avg_rent_euro 500 ∧ i < 4)) :
    SpatialEffectsModule.prosperity_phase cell n i = n := by
  unfold SpatialEffectsModule.prosperity_phase
  dsimp only
  rw [if_neg h]

/-- C2: the Spatial Effects prosperity spillover mutates neighbor employment
and rent exactly when the source cell has `employment > 600` and
`avg_rent > 600`: each of the first up-to-4 neighbors then gains 5% of the
source's employment and 3% of the source's rent; when the condition fails
(or beyond the fourth neighbor) neighbor employment and rent are untouched.
For the spec's concrete scenario (source rent 900/employment 700, neighbor
rent 500/employment 400) the neighbor gains exactly 35 employment and 27
rent in one application. -/
theorem C2_prosperity_spillover :
    (∀ (cell n : CellState) (i : ℕ),
        600 < oget cell.employment 500 → 600 < oget cell.avg_rent_euro 500 → i < 4 →
        (SpatialEffectsModule.neighbor_update cell n i).employment =
          some (oget n.employment 500 + oget cell.employment 500 * 0.05) ∧
        (SpatialEffectsModule.neighbor_update cell n i).avg_rent_euro =
          some (oget n.avg_rent_euro 500 + oget cell.avg_rent_euro 500 * 0.03) ∧
        0 < oget cell.employment 500 * 0.05 ∧ 0 < oget cell.avg_rent_euro 500 * 0.03) ∧
    (∀ (cell n : CellState) (i : ℕ),
        ¬ (600 < oget cell.employment 500 ∧ 600 < oget cell.avg_rent_euro 500) →
        (SpatialEffectsModule.neighbor_update cell n i).employment = n.employment ∧
        (SpatialEffectsModule.neighbor_update cell n i).avg_rent_euro = n.avg_rent_euro) ∧
    (∀ (cell n : CellState) (i : ℕ), 4 ≤ i →
        (SpatialEffectsModule.neighbor_update cell n i).employment = n.employment ∧
        (SpatialEffectsModule.neighbor_update cell n i).avg_rent_euro = n.avg_rent_euro) ∧
    (SpatialEffectsModule.apply_cell_rules prosperity_source [prosperity_neighbor]).2.map
        (fun n => n.employment) = [some (400 + 35)] ∧
    (SpatialEffectsModule.apply_cell_rules prosperity_source [prosperity_neighbor]).2.map
        (fun n => n.avg_rent_euro) = [some (500 + 27)] ∧
    oget prosperity_source.employment 500 * 0.05 = 35 ∧
    oget prosperity_source.avg_rent_euro 500 * 0.03 = 27 := by
  have hfire : ∀ (cell n : CellState) (i : ℕ),
      600 < oget cell.employment 500 → 600 < oget cell.avg_rent_euro 500 → i < 4 →
      (SpatialEffectsModule.neighbor_update cell n i).employment =
        some (oget n.employment 500 + oget cell.employment 500 * 0.05) ∧
      (SpatialEffectsModule.neighbor_update cell n i).avg_rent_euro =
        some (oget n.avg_rent_euro 500 + oget cell.avg_rent_euro 500 * 0.03) := by
    intro cell n i h1 h2 h3
    have := prosperity_phase_fires cell n i ⟨h1, h2, h3⟩
    rw [(neighbor_update_emp_rent cell n i).1, (neighbor_update_emp_rent cell n i).2]
    exact this
  have hfire2 : ∀ (cell n : CellState) (i : ℕ),
      600 < oget cell.employment 500 → 600 < oget cell.avg_rent_euro 500 → i < 4 →
      (SpatialEffectsModule.neighbor_update cell n i).employment =
        some (oget n.employment 500 + oget cell.employment 500 * 0.05) ∧
      (SpatialEffectsModule.neighbor_update cell n i).avg_rent_euro =
        some (oget n.avg_rent_euro 500 + oget cell.avg_rent_euro 500 * 0.03) ∧
      0 < oget cell.employment 500 * 0.05 ∧ 0 < oget cell.avg_rent_euro 500 * 0.03 := by
    intro cell n i h1 h2 h3
    obtain ⟨he, hr⟩ := hfire cell n i h1 h2 h3
    exact ⟨he, hr, by linarith, by linarith⟩
  refine ⟨hfire2, ?_, ?_, ?_, ?_, by norm_num [prosperity_source, oget],
    by norm_num [prosperity_source, oget]⟩
  · intro cell n i h
    rw [(neighbor_update_emp_rent cell n i).1, (neighbor_update_emp_rent cell n i).2,
      prosperity_phase_skips cell n i (by tauto)]
    exact ⟨rfl, rfl⟩
  · intro cell n i h
    rw [(neighbor_update_emp_rent cell n i).1, (neighbor_update_emp_rent cell n i).2,
      prosperity_phase_skips cell n i (by omega)]
    exact ⟨rfl, rfl⟩
  · have hsrc : SpatialEffectsModule.apply_cell_rules prosperity_source [prosperity_neighbor] =
        (prosperity_source,
          [SpatialEffectsModule.neighbor_update prosperity_source prosperity_neighbor 0]) := by
      rfl
    rw [hsrc]
    have := hfire prosperity_source prosperity_neighbor 0
      (by norm_num [prosperity_source, oget]) (by norm_num [prosperity_source, oget])
      (by norm_num)
    simp only [List.map_cons, List.map_nil, this.1]
    norm_num [prosperity_source, prosperity_neighbor, oget]
  · have hsrc : SpatialEffectsModule.apply_cell_rules prosperity_source [prosperity_neighbor] =
        (prosperity_source,
          [SpatialEffectsModule.neighbor_update prosperity_source prosperity_neighbor 0]) := by
      rfl
    rw [hsrc]
    have := hfire prosperity_source prosperity_neighbor 0
      (by norm_num [prosperity_source, oget]) (by norm_num [prosperity_source, oget])
      (by norm_num)
    simp only [List.map_cons, List.map_nil, this.2]
    norm_num [prosperity_source, prosperity_neighbor, oget]

/-- C1 (amended): the Housing Market module's write to `avg_rent_euro`
always lands in [300, 3000] (it is the only module that clamps rent); the
other rent-writing modules (EV, Policy, Education, Healthcare, Spatial
Effects) write without clamping, so the claimed global invariant fails —
see the counterexample. -/
theorem C1_housing_rent_in_range (s : CellState) :
    300 ≤ oget (HousingMarketModule.apply_cell_rules s).avg_rent_euro 500 ∧
    oget (HousingMarketModule.apply_cell_rules s).avg_rent_euro 500 ≤ 3000 := by
  have h : (HousingMarketModule.apply_cell_rules s).avg_rent_euro =
      some (max 300 (min 3000 (HousingMarketModule.new_rent s))) := rfl
  rw [h]
  simp only [oget, Option.getD_some]
  exact ⟨le_max_left _ _, max_le (by norm_num) (min_le_left _ _)⟩

/-- Counterexample to C1: `rent_floor_cex` has every declared metric inside
its documented range (scores in [0,1], rent = 300 ∈ [300,3000], population
1000 ≥ 100), yet after the first two modules of the default pipeline (EV
Infrastructure, then Policy Intervention — i.e. during the very first
timestep) its rent is 285 ∉ [300, 3000]: the Policy module's EV-subsidy
write leaves the interval. -/
theorem C1_rent_leaves_range_cex :
    ScoreInv rent_floor_cex ∧
    300 ≤ oget rent_floor_cex.avg_rent_euro 500 ∧
    oget rent_floor_cex.avg_rent_euro 500 ≤ 3000 ∧
    100 ≤ oget rent_floor_cex.population 1000 ∧
    (UrbanCell.step (UrbanModel.get_default_modules.take 2) 1 rent_floor_cex []).1 =
      PolicyModule.apply_cell_rules default_policies (EVModule.apply_cell_rules rent_floor_cex) ∧
    (PolicyModule.apply_cell_rules default_policies
        (EVModule.apply_cell_rules rent_floor_cex)).avg_rent_euro = some 285 ∧
    ¬ (300 ≤ (285 : ℚ)) := by
  refine ⟨by norm_num [ScoreInv, rent_floor_cex, oget],
    by norm_num [rent_floor_cex, oget], by norm_num [rent_floor_cex, oget],
    by norm_num [rent_floor_cex, oget], rfl, ?_, by norm_num⟩
  have hEV : EVModule.apply_cell_rules rent_floor_cex =
      { rent_floor_cex with
        air_quality_index := some 50
        avg_rent_euro := some 300
        ev_attractiveness_bonus := some 0
        employment := some 500
        social_cohesion_index := some 0.503
        public_transit_accessibility := some 0.00075 } := by
    norm_num [EVModule.apply_cell_rules, rent_floor_cex, oget]
  rw [hEV]
  norm_num [PolicyModule.apply_cell_rules, PolicyModule.ev_subsidy_stage, PolicyModule.progressive_tax_stage, PolicyModule.green_space_stage, PolicyModule.transit_stage, PolicyModule.rent_control_stage, default_policies, rent_floor_cex, oget]

lemma clamp01_mem (x : ℚ) : 0 ≤ max 0 (min 1 x) ∧ max 0 (min 1 x) ≤ 1 :=
  ⟨clamp01_nonneg x, clamp01_le_one x⟩

lemma StateInv_population_module (area_sqkm : ℚ) (s : CellState) (h : StateInv s) :
    StateInv (PopulationModule.apply_cell_rules area_sqkm s) := by
  unfold PopulationModule.apply_cell_rules
  dsimp only
  split <;> exact h

lemma StateInv_transportation_module (s : CellState) (ns : List CellState)
    (h : StateInv s) : StateInv (TransportationModule.apply_cell_rules s ns) := by
  unfold TransportationModule.apply_cell_rules
  exact h

lemma StateInv_commercial_module (s : CellState) (ns : List CellState)
    (h : StateInv s) : StateInv (CommercialModule.apply_cell_rules s ns) := by
  unfold CommercialModule.apply_cell_rules
  exact h

lemma StateInv_safety_module (s : CellState) (ns : List CellState)
    (h : StateInv s) : StateInv (SafetyModule.apply_cell_rules s ns) := by
  obtain ⟨⟨hsa, hdi, hco, hva, hgr, htr⟩, hu⟩ := h
  unfold SafetyModule.apply_cell_rules
  exact ⟨⟨clamp01_mem _, hdi, hco, hva, hgr, htr⟩, hu⟩

lemma housing_units_val_nonneg (s : CellState)
    (hu : ∀ h, s.housing_units = some h → 0 ≤ h) :
    0 ≤ HousingMarketModule.housing_units_val s := by
  unfold HousingMarketModule.housing_units_val
  cases hhu : s.housing_units with
  | none =>
    simp only [oget, hhu, Option.getD_none]
    exact le_trans (by norm_num) (le_max_left 400 _)
  | some v =>
    simp only [oget, hhu, Option.getD_some]
    exact hu v hhu

lemma StateInv_housing_module (s : CellState) (h : StateInv s) :
    StateInv (HousingMarketModule.apply_cell_rules s) := by
  obtain ⟨⟨hsa, hdi, hco, hva, hgr, htr⟩, hu⟩ := h
  have hunits := housing_units_val_nonneg s hu
  have hocc : 0 ≤ min 1
      (HousingMarketModule.housing_units_val s / max (oget s.population 1000 / 2.5) 1) :=
    le_min (by norm_num)
      (div_nonneg hunits (le_trans (by norm_num) (le_max_right (oget s.population 1000 / 2.5) 1)))
  unfold HousingMarketModule.apply_cell_rules
  dsimp only
  refine ⟨⟨hsa, clamp01_mem _, hco, ⟨le_max_left 0 _, ?_⟩, hgr, htr⟩, ?_⟩
  · exact max_le (by norm_num) (by linarith)
  · intro hval e
    simp only [Option.some.injEq] at e
    rw [← e]
    exact hunits

lemma StateInv_ev_module (s : CellState) (h : StateInv s) :
    StateInv (EVModule.apply_cell_rules s) := by
  obtain ⟨⟨hsa, hdi, hco, hva, hgr, htr⟩, hu⟩ := h
  unfold EVModule.apply_cell_rules
  dsimp only
  split
  · exact ⟨⟨hsa, hdi, hco, hva, hgr, htr⟩, hu⟩
  · exact ⟨⟨hsa, hdi, clamp01_mem _, hva, hgr, clamp01_mem _⟩, hu⟩

lemma StateInv_education_module (s : CellState) (h : StateInv s) :
    StateInv (EducationModule.apply_cell_rules s) := by
  obtain ⟨⟨hsa, hdi, hco, hva, hgr, htr⟩, hu⟩ := h
  unfold EducationModule.apply_cell_rules
  exact ⟨⟨hsa, hdi, clamp01_mem _, hva, hgr, htr⟩, hu⟩

lemma StateInv_healthcare_module (s : CellState) (h : StateInv s) :
    StateInv (HealthcareModule.apply_cell_rules s) := by
  obtain ⟨⟨hsa, hdi, hco, hva, hgr, htr⟩, hu⟩ := h
  have hboost : 0 ≤ min 0.15 (max 0 (oget s.population 1000 / 3000) * 0.05) :=
    le_min (by norm_num) (mul_nonneg (le_max_left 0 _) (by norm_num))
  unfold HealthcareModule.apply_cell_rules
  dsimp only
  refine ⟨⟨⟨le_min (by norm_num) (add_nonneg hsa.1 (mul_nonneg hboost (by norm_num))),
    min_le_left _ _⟩, hdi, clamp01_mem _, hva, hgr, htr⟩, hu⟩

lemma StateInv_ev_subsidy_stage (s : CellState) (h : StateInv s) :
    StateInv (PolicyModule.ev_subsidy_stage default_policies s) := by
  unfold PolicyModule.ev_subsidy_stage
  dsimp only
  split <;> exact h

lemma StateInv_progressive_tax_stage (s : CellState) (h : StateInv s) :
    StateInv (PolicyModule.progressive_tax_stage default_policies s) := by
  obtain ⟨⟨hsa, hdi, hco, hva, hgr, htr⟩, hu⟩ := h
  unfold PolicyModule.progressive_tax_stage
  dsimp only
  split
  · split
    · refine ⟨⟨hsa, ⟨le_min (by norm_num)
        (add_nonneg hdi.1 (by norm_num [default_policies])), min_le_left _ _⟩,
        hco, hva, hgr, htr⟩, hu⟩
    · exact ⟨⟨hsa, hdi, hco, hva, hgr, htr⟩, hu⟩
  · exact ⟨⟨hsa, hdi, hco, hva, hgr, htr⟩, hu⟩

lemma StateInv_green_space_stage (s : CellState) (h : StateInv s) :
    StateInv (PolicyModule.green_space_stage default_policies s) := by
  obtain ⟨⟨hsa, hdi, hco, hva, hgr, htr⟩, hu⟩ := h
  have ht : default_policies.green_space_target = 0.2 := by norm_num [default_policies]
  have hng : 0 ≤ min default_policies.green_space_target
      (oget s.green_space_ratio 0 +
        (default_policies.green_space_target - oget s.green_space_ratio 0) * 0.2) := by
    rw [ht]
    refine le_min (by norm_num) (by linarith [hgr.1])
  have hng1 : min default_policies.green_space_target
      (oget s.green_space_ratio 0 +
        (default_policies.green_space_target - oget s.green_space_ratio 0) * 0.2) ≤ 1 := by
    refine le_trans (min_le_left _ _) (by rw [ht]; norm_num)
  unfold PolicyModule.green_space_stage
  dsimp only
  split
  · split
    · next hpos =>
      refine ⟨⟨⟨le_min (by norm_num) ?_, min_le_left _ _⟩, hdi, hco, hva, ⟨hng, hng1⟩, htr⟩, hu⟩
      exact add_nonneg hsa.1
        (mul_nonneg (mul_nonneg (le_of_lt hpos) (by norm_num [default_policies])) (by norm_num))
    · exact ⟨⟨hsa, hdi, hco, hva, ⟨hng, hng1⟩, htr⟩, hu⟩
  · exact ⟨⟨hsa, hdi, hco, hva, hgr, htr⟩, hu⟩

lemma StateInv_transit_stage (s : CellState) (h : StateInv s) :
    StateInv (PolicyModule.transit_stage default_policies s) := by
  obtain ⟨⟨hsa, hdi, hco, hva, hgr, htr⟩, hu⟩ := h
  unfold PolicyModule.transit_stage
  dsimp only
  split
  · refine ⟨⟨hsa, hdi, hco, hva, hgr, ⟨le_min (by norm_num)
      (add_nonneg htr.1 (by norm_num [default_policies])), min_le_left _ _⟩⟩, hu⟩
  · exact ⟨⟨hsa, hdi, hco, hva, hgr, htr⟩, hu⟩

lemma StateInv_rent_control_stage (s : CellState) (h : StateInv s) :
    StateInv (PolicyModule.rent_control_stage default_policies s) := by
  have hskip : PolicyModule.rent_control_stage default_policies s = s := by
    unfold PolicyModule.rent_control_stage
    norm_num [default_policies]
  rw [hskip]
  exact h

lemma StateInv_policy_module (s : CellState) (h : StateInv s) :
    StateInv (PolicyModule.apply_cell_rules default_policies s) := by
  unfold PolicyModule.apply_cell_rules
  dsimp only
  exact StateInv_rent_control_stage _ (StateInv_transit_stage _
    (StateInv_green_space_stage _ (StateInv_progressive_tax_stage _
      (StateInv_ev_subsidy_stage _ h))))

lemma StateInv_prosperity_phase (cell n : CellState) (i : ℕ) (h : StateInv n) :
    StateInv (SpatialEffectsModule.prosperity_phase cell n i) := by
  unfold SpatialEffectsModule.prosperity_phase
  dsimp only
  split <;> exact h

lemma StateInv_gentrification_phase (cell n : CellState) (h : StateInv n) :
    StateInv (SpatialEffectsModule.gentrification_phase cell n) := by
  obtain ⟨⟨hsa, hdi, hco, hva, hgr, htr⟩, hu⟩ := h
  unfold SpatialEffectsModule.gentrification_phase
  dsimp only
  split
  · next hcond =>
    have hp : 0 ≤ 0.05 * (oget cell.avg_rent_euro 500 - 800) / 500 :=
      div_nonneg (mul_nonneg (by norm_num) (by linarith)) (by norm_num)
    have hd : 0 ≤ min 1 (oget n.displacement_risk 0 +
        0.05 * (oget cell.avg_rent_euro 500 - 800) / 500 * 0.1) ∧
        min 1 (oget n.displacement_risk 0 +
          0.05 * (oget cell.avg_rent_euro 500 - 800) / 500 * 0.1) ≤ 1 :=
      ⟨le_min (by norm_num) (add_nonneg hdi.1 (mul_nonneg hp (by norm_num))), min_le_left _ _⟩
    split
    · exact ⟨⟨hsa, hd, hco, hva, hgr, htr⟩, hu⟩
    · exact ⟨⟨hsa, hd, hco, hva, hgr, htr⟩, hu⟩
  · exact ⟨⟨hsa, hdi, hco, hva, hgr, htr⟩, hu⟩

lemma StateInv_air_quality_phase (cell n : CellState) (h : StateInv n) :
    StateInv (SpatialEffectsModule.air_quality_phase cell n) := by
  unfold SpatialEffectsModule.air_quality_phase
  dsimp only
  split <;> exact h

lemma StateInv_safety_phase (cell n : CellState) (h : StateInv n) :
    StateInv (SpatialEffectsModule.safety_phase cell n) := by
  obtain ⟨⟨hsa, hdi, hco, hva, hgr, htr⟩, hu⟩ := h
  unfold SpatialEffectsModule.safety_phase
  dsimp only
  split
  · exact ⟨⟨clamp01_mem _, hdi, hco, hva, hgr, htr⟩, hu⟩
  · exact ⟨⟨hsa, hdi, hco, hva, hgr, htr⟩, hu⟩

lemma StateInv_population_phase (cell n : CellState) (h : StateInv n) :
    StateInv (SpatialEffectsModule.population_phase cell n) := by
  unfold SpatialEffectsModule.population_phase
  dsimp only
  split <;> exact h

lemma StateInv_cohesion_phase (cell n : CellState) (h : StateInv n) :
    StateInv (SpatialEffectsModule.cohesion_phase cell n) := by
  obtain ⟨⟨hsa, hdi, hco, hva, hgr, htr⟩, hu⟩ := h
  unfold SpatialEffectsModule.cohesion_phase
  dsimp only
  split
  · next hcond =>
    refine ⟨⟨hsa, hdi, ⟨le_min (by norm_num) (by nlinarith [hco.1, hco.2]), min_le_left _ _⟩,
      hva, hgr, htr⟩, hu⟩
  · exact ⟨⟨hsa, hdi, hco, hva, hgr, htr⟩, hu⟩

lemma StateInv_congestion_phase (cell n : CellState) (h : StateInv n) :
    StateInv (SpatialEffectsModule.congestion_phase cell n) := by
  unfold SpatialEffectsModule.congestion_phase
  dsimp only
  split <;> exact h

lemma StateInv_neighbor_update (cell n : CellState) (i : ℕ) (h : StateInv n) :
    StateInv (SpatialEffectsModule.neighbor_update cell n i) :=
  StateInv_congestion_phase _ _ (StateInv_cohesion_phase _ _
    (StateInv_population_phase _ _ (StateInv_safety_phase _ _
      (StateInv_air_quality_phase _ _ (StateInv_gentrification_phase _ _
        (StateInv_prosperity_phase _ _ _ h))))))

lemma StateInv_neighbors_update (cell : CellState) :
    ∀ (i0 : ℕ) (ns : List CellState), (∀ n ∈ ns, StateInv n) →
      ∀ n' ∈ SpatialEffectsModule.neighbors_update cell i0 ns, StateInv n' := by
  intro i0 ns
  induction ns generalizing i0 with
  | nil =>
    intro _ n' hn'
    simp [SpatialEffectsModule.neighbors_update] at hn'
  | cons a t ih =>
    intro hall n' hn'
    simp only [SpatialEffectsModule.neighbors_update, List.mem_cons] at hn'
    rcases hn' with rfl | hmem
    · exact StateInv_neighbor_update cell a i0 (hall a (List.mem_cons_self _ _))
    · exact ih (i0 + 1) (fun x hx => hall x (List.mem_cons_of_mem _ hx)) n' hmem

/-- Every module of the default pipeline preserves the range invariant, on
the acting cell and on every neighbor it hands back. -/
lemma default_modules_preserve (m : UrbanModule)
    (hm : m ∈ UrbanModel.get_default_modules) (area_sqkm : ℚ) (c : CellState)
    (ns : List CellState) (hc : StateInv c) (hns : ∀ n ∈ ns, StateInv n) :
    StateInv (m.apply_cell_rules area_sqkm c ns).1 ∧
    ∀ n' ∈ (m.apply_cell_rules area_sqkm c ns).2, StateInv n' := by
  simp only [UrbanModel.get_default_modules, List.mem_cons, List.not_mem_nil,
    or_false] at hm
  rcases hm with rfl | rfl | rfl | rfl | rfl | rfl | rfl | rfl | rfl | rfl
  · exact ⟨StateInv_ev_module c hc, hns⟩
  · exact ⟨StateInv_policy_module c hc, hns⟩
  · exact ⟨StateInv_education_module c hc, hns⟩
  · exact ⟨StateInv_healthcare_module c hc, hns⟩
  · constructor
    · show StateInv (SpatialEffectsModule.apply_cell_rules c ns).1
      unfold SpatialEffectsModule.apply_cell_rules
      split <;> exact hc
    · show ∀ n' ∈ (SpatialEffectsModule.apply_cell_rules c ns).2, StateInv n'
      unfold SpatialEffectsModule.apply_cell_rules
      split
      · exact hns
      · exact StateInv_neighbors_update c 0 ns hns
  · exact ⟨StateInv_population_module area_sqkm c hc, hns⟩
  · exact ⟨StateInv_transportation_module c ns hc, hns⟩
  · exact ⟨StateInv_housing_module c hc, hns⟩
  · exact ⟨StateInv_safety_module c ns hc, hns⟩
  · exact ⟨StateInv_commercial_module c ns hc, hns⟩

lemma StoreInv_setCell (cm : ℕ → CellState) (i : ℕ) (s : CellState)
    (h : StoreInv cm) (hs : StateInv s) : StoreInv (setCell cm i s) := by
  intro j
  unfold setCell
  split
  · exact hs
  · exact h j

lemma StoreInv_writeCells :
    ∀ (l : List (ℕ × CellState)) (cm : ℕ → CellState), StoreInv cm →
      (∀ p ∈ l, StateInv p.2) → StoreInv (writeCells cm l) := by
  intro l
  induction l with
  | nil => intro cm h _; exact h
  | cons p t ih =>
    intro cm h hall
    exact ih _ (StoreInv_setCell _ _ _ h (hall p (List.mem_cons_self _ _)))
      (fun q hq => hall q (List.mem_cons_of_mem _ hq))

lemma StoreInv_apply_module_at (g : GridTopology) (m : UrbanModule)
    (hm : m ∈ UrbanModel.get_default_modules) (cm : ℕ → CellState) (cid : ℕ)
    (h : StoreInv cm) : StoreInv (apply_module_at g m cm cid) := by
  unfold apply_module_at
  dsimp only
  have hres := default_modules_preserve m hm (g.area_sqkm cid) (cm cid)
    ((g.nbhd cid).map cm) (h cid)
    (by
      intro n hn
      rcases List.mem_map.mp hn with ⟨j, hj, rfl⟩
      exact h j)
  refine StoreInv_writeCells _ _ (StoreInv_setCell _ _ _ h hres.1) ?_
  intro p hp
  obtain ⟨a, b⟩ := p
  exact hres.2 b (List.of_mem_zip hp).2

lemma StoreInv_process_cell (g : GridTopology) :
    ∀ (ms : List UrbanModule), (∀ m ∈ ms, m ∈ UrbanModel.get_default_modules) →
      ∀ (cm : ℕ → CellState) (cid : ℕ), StoreInv cm →
        StoreInv (process_cell g ms cm cid) := by
  intro ms
  induction ms with
  | nil => intro _ cm cid h; exact h
  | cons m t ih =>
    intro hsub cm cid h
    exact ih (fun x hx => hsub x (List.mem_cons_of_mem _ hx)) _ cid
      (StoreInv_apply_module_at g m (hsub m (List.mem_cons_self _ _)) cm cid h)

lemma StoreInv_model_step (g : GridTopology) :
    ∀ (order : List ℕ) (cm : ℕ → CellState), StoreInv cm →
      StoreInv (UrbanModel.step g UrbanModel.get_default_modules order cm) := by
  intro order
  induction order with
  | nil => intro cm h; exact h
  | cons cid t ih =>
    intro cm h
    exact ih _ (StoreInv_process_cell g UrbanModel.get_default_modules
      (fun m hm => hm) cm cid h)

lemma run_simulation_inv_aux (g : GridTopology) (orders : ℕ → List ℕ) (steps : ℕ) :
    ∀ (l : List ℕ) (cm : ℕ → CellState) (acc : List (ℕ × (ℕ → CellState))),
      StoreInv cm → (∀ p ∈ acc, StoreInv p.2) →
      StoreInv ((l.foldl (fun st k =>
          let cm := UrbanModel.step g UrbanModel.get_default_modules (orders (k + 1)) st.1
          if (k + 1) % 10 = 0 ∨ (k + 1) = steps then (cm, st.2 ++ [(k + 1, cm)])
          else (cm, st.2)) (cm, acc)).1) ∧
      ∀ p ∈ (l.foldl (fun st k =>
          let cm := UrbanModel.step g UrbanModel.get_default_modules (orders (k + 1)) st.1
          if (k + 1) % 10 = 0 ∨ (k + 1) = steps then (cm, st.2 ++ [(k + 1, cm)])
          else (cm, st.2)) (cm, acc)).2, StoreInv p.2 := by
  intro l
  induction l with
  | nil => intro cm acc h hacc; exact ⟨h, hacc⟩
  | cons k t ih =>
    intro cm acc h hacc
    have hstep := StoreInv_model_step g (orders (k + 1)) cm h
    by_cases hc : (k + 1) % 10 = 0 ∨ (k + 1) = steps
    · simp only [List.foldl_cons, if_pos hc]
      refine ih _ _ hstep ?_
      intro p hp
      rcases List.mem_append.mp hp with hp | hp
      · exact hacc p hp
      · rcases List.mem_singleton.mp hp with rfl
        exact hstep
    · simp only [List.foldl_cons, if_neg hc]
      exact ih _ _ hstep hacc

/-- C3: given initial values in range, for every cell and at every point of
a run of the default pipeline each of the six score metrics `safety_score`,
`displacement_risk`, `social_cohesion_index`, `vacancy_rate`,
`green_space_ratio`, `public_transit_accessibility` stays in [0,1]: every
single module application preserves the invariant, and so do the final state
and every snapshot of `run_simulation`; the default initial state satisfies
the invariant. -/
theorem C3_scores_stay_in_unit_interval :
    (∀ m ∈ UrbanModel.get_default_modules, ∀ g cm cid,
        StoreInv cm → StoreInv (apply_module_at g m cm cid)) ∧
    (∀ g orders steps cm₀, StoreInv cm₀ →
        (∀ j, ScoreInv
          ((UrbanModel.run_simulation g UrbanModel.get_default_modules orders cm₀ steps).1 j)) ∧
        (∀ p ∈ (UrbanModel.run_simulation g UrbanModel.get_default_modules orders cm₀ steps).2,
          ∀ j, ScoreInv (p.2 j))) ∧
    StoreInv (fun _ => UrbanCell.default_state) := by
  refine ⟨?_, ?_, ?_⟩
  · intro m hm g cm cid h
    exact StoreInv_apply_module_at g m hm cm cid h
  · intro g orders steps cm₀ h
    have := run_simulation_inv_aux g orders steps (List.range steps) cm₀ [] h
      (by intro p hp; exact absurd hp (List.not_mem_nil p))
    exact ⟨fun j => (this.1 j).1, fun p hp j => ((this.2 p hp) j).1⟩
  · intro j
    refine ⟨by norm_num [ScoreInv, UrbanCell.default_state, oget], ?_⟩
    intro hval e
    simp only [UrbanCell.default_state, Option.some.injEq] at e
    rw [← e]
    norm_num

end UrbanSim
